import Mathlib

/-!
Shallow embedding of the NonAdminBackup reconciliation engine
(internal/controller/nonadminbackup_controller.go and
internal/predicate/nonadminbackup_predicate.go).

Go pointer-mutating helpers are translated as pure functions returning the
updated value together with the Bool the Go function returns.  Machine state
(the stored request object and the stored execution object) is passed
explicitly; store writes are modelled as succeeding.  Times are Nat.
-/

/-- constant.EmptyString. -/
def EmptyString : String := ""

/-- nacv1alpha1.NonAdminBackupPhase is a string type in the source. -/
abbrev NonAdminBackupPhase := String

/-- nacv1alpha1.NonAdminBackupPhaseNew. -/
def NonAdminBackupPhaseNew : NonAdminBackupPhase := "New"

/-- nacv1alpha1.NonAdminBackupPhaseBackingOff. -/
def NonAdminBackupPhaseBackingOff : NonAdminBackupPhase := "BackingOff"

/-- nacv1alpha1.NonAdminBackupPhaseCreated. -/
def NonAdminBackupPhaseCreated : NonAdminBackupPhase := "Created"

/-- nacv1alpha1.NonAdminConditionAccepted. -/
def NonAdminConditionAccepted : String := "Accepted"

/-- nacv1alpha1.NonAdminConditionQueued. -/
def NonAdminConditionQueued : String := "Queued"

/-- metav1.ConditionTrue. -/
def ConditionTrue : String := "True"

/-- metav1.ConditionFalse. -/
def ConditionFalse : String := "False"

/-- metav1.Condition: type, status, reason, message, observed generation and
last transition time (0 models the zero time). -/
structure Condition where
  condType : String
  status : String
  reason : String
  message : String
  observedGeneration : Nat
  lastTransitionTime : Nat
deriving DecidableEq

/-- meta.FindStatusCondition from k8s apimachinery: first condition of the
given type. -/
def FindStatusCondition (conditions : List Condition) (condType : String) :
    Option Condition :=
  conditions.find? fun c => c.condType == condType

/-- Update step of meta.SetStatusCondition on an already present condition of
the same type: fields are copied one by one, each copy that changes something
setting the changed flag; the transition time is only touched when the status
changes. -/
def mergeCondition (existing newCondition : Condition) (now : Nat) :
    Condition × Bool :=
  let s :=
    if existing.status ≠ newCondition.status then
      ({ existing with
          status := newCondition.status,
          lastTransitionTime :=
            if newCondition.lastTransitionTime ≠ 0 then
              newCondition.lastTransitionTime
            else now },
        true)
    else (existing, false)
  let r :=
    if s.1.reason ≠ newCondition.reason then
      ({ s.1 with reason := newCondition.reason }, true)
    else s
  let m :=
    if r.1.message ≠ newCondition.message then
      ({ r.1 with message := newCondition.message }, true)
    else r
  if m.1.observedGeneration ≠ newCondition.observedGeneration then
    ({ m.1 with observedGeneration := newCondition.observedGeneration }, true)
  else m

/-- meta.SetStatusCondition from k8s apimachinery: append the condition when
its type is absent (stamping the transition time when zero), otherwise merge
into the first condition of that type; returns the new list and whether
anything changed. -/
def SetStatusCondition : List Condition → Condition → Nat →
    List Condition × Bool
  | [], newCondition, now =>
      ([if newCondition.lastTransitionTime = 0 then
          { newCondition with lastTransitionTime := now }
        else newCondition], true)
  | existing :: rest, newCondition, now =>
      if existing.condType = newCondition.condType then
        let m := mergeCondition existing newCondition now
        (m.1 :: rest, m.2)
      else
        let t := SetStatusCondition rest newCondition now
        (existing :: t.1, t.2)

/-- velerov1.BackupSpec as the engine uses it: IncludedNamespaces plus the
rest of the spec, carried opaquely (DeepCopy is the identity on values). -/
structure BackupSpec where
  includedNamespaces : List String
  otherFields : String
deriving DecidableEq

/-- velerov1.BackupStatus, abstracted: the phase plus the rest of the status
carried opaquely; the engine only ever deep-copies and compares it. -/
structure BackupStatus where
  phase : String
  otherFields : String
deriving DecidableEq

/-- Zero value of velerov1.BackupStatus, the status a Backup object has right
after Create. -/
def zeroBackupStatus : BackupStatus :=
  { phase := EmptyString, otherFields := EmptyString }

/-- velerov1.Backup: the execution object. -/
structure VeleroBackup where
  name : String
  nspace : String
  labels : List (String × String)
  annotations : List (String × String)
  spec : BackupSpec
  status : BackupStatus
deriving DecidableEq

/-- nacv1alpha1.VeleroBackup: the reference block inside the request status.
In Go, status is a possibly nil pointer to a deep copy. -/
structure VeleroBackupRef where
  name : String
  nspace : String
  status : Option BackupStatus
deriving DecidableEq

/-- nacv1alpha1.NonAdminBackupSpec. -/
structure NonAdminBackupSpec where
  backupSpec : BackupSpec
deriving DecidableEq

/-- nacv1alpha1.NonAdminBackupStatus. -/
structure NonAdminBackupStatus where
  phase : NonAdminBackupPhase
  conditions : List Condition
  veleroBackup : Option VeleroBackupRef
deriving DecidableEq

/-- nacv1alpha1.NonAdminBackup. -/
structure NonAdminBackup where
  name : String
  nspace : String
  generation : Nat
  spec : NonAdminBackupSpec
  status : NonAdminBackupStatus
deriving DecidableEq

/-- Modelled from the spec: function.GenerateVeleroBackupName is not under
src/. The spec requires a pure deterministic function of the
(tenant-namespace, request-name) pair, collision-resistant across distinct
pairs; modelled as the tagged concatenation of the pair. -/
def GenerateVeleroBackupName (nspace name : String) : String :=
  "nab-" ++ nspace ++ "-" ++ name

/-- Modelled from the spec: function.GetNonAdminLabels is not under src/.
The spec requires a fixed label set marking an execution object as
system-managed. -/
def GetNonAdminLabels : List (String × String) :=
  [("app.kubernetes.io/managed-by", "oadp-nac-controller")]

/-- Modelled from the spec: function.GetNonAdminBackupAnnotations is not
under src/. The spec requires a trace annotation set recording the
originating request namespace and name, enabling reverse lookup. -/
def GetNonAdminBackupAnnotations (nabNspace nabName : String) :
    List (String × String) :=
  [("oadp.openshift.io/nab-origin-nspace", nabNspace),
   ("oadp.openshift.io/nab-origin-name", nabName)]

/-- Modelled from the spec: function.ValidateBackupSpec is not under src/.
The spec requires a pure validator of the embedded backup spec forbidding
fields that would let a tenant see other namespaces; modelled as rejecting
any request whose embedded spec lists included namespaces itself. Returns
the error message on failure, none on success. -/
def ValidateBackupSpec (nab : NonAdminBackup) : Option String :=
  if nab.spec.backupSpec.includedNamespaces ≠ [] then
    some "spec.backupSpec.includedNamespaces is restricted"
  else
    none

/-- updateNonAdminPhase: sets the phase and reports whether this call changed
it; an empty new phase is rejected and changes nothing. -/
def updateNonAdminPhase (phase newPhase : NonAdminBackupPhase) :
    NonAdminBackupPhase × Bool :=
  if newPhase = EmptyString then (phase, false)
  else if phase = newPhase then (phase, false)
  else (newPhase, true)

/-- updateNonAdminBackupVeleroBackupReference: sets the VeleroBackup
reference identity fields in the request status and reports whether this
call changed them. -/
def updateNonAdminBackupVeleroBackupReference (status : NonAdminBackupStatus)
    (veleroBackup : VeleroBackup) : NonAdminBackupStatus × Bool :=
  match status.veleroBackup with
  | none =>
      let ref : VeleroBackupRef :=
        { name := veleroBackup.name, nspace := veleroBackup.nspace,
          status := none }
      ({ status with veleroBackup := some ref }, true)
  | some ref =>
      if ref.name ≠ veleroBackup.name ∨ ref.nspace ≠ veleroBackup.nspace then
        let ref2 : VeleroBackupRef :=
          { ref with name := veleroBackup.name, nspace := veleroBackup.nspace }
        ({ status with veleroBackup := some ref2 }, true)
      else (status, false)

/-- updateNonAdminBackupVeleroBackupStatus: sets the VeleroBackup status
snapshot in the request status and reports whether this call changed it.
In Go the comparison is reflect.DeepEqual of the stored pointer (possibly
nil) against the address of the live status (never nil), hence the
comparison with some of the live status. -/
def updateNonAdminBackupVeleroBackupStatus (status : NonAdminBackupStatus)
    (veleroBackup : VeleroBackup) : NonAdminBackupStatus × Bool :=
  match status.veleroBackup with
  | none =>
      let ref : VeleroBackupRef :=
        { name := EmptyString, nspace := EmptyString,
          status := some veleroBackup.status }
      ({ status with veleroBackup := some ref }, true)
  | some ref =>
      if ref.status ≠ some veleroBackup.status then
        let ref2 : VeleroBackupRef :=
          { ref with status := some veleroBackup.status }
        ({ status with veleroBackup := some ref2 }, true)
      else (status, false)

/-- Reconcile errors: reconcile.TerminalError wraps versus a plain error. -/
inductive ReconcileError where
  | terminal (msg : String)
  | plain (msg : String)
deriving DecidableEq

/-- Outcome of one reconcile step: the request object (in-memory and stored
copies coincide, since all mutations are either written or no-ops), the
execution-object store, the execution object created by the step if any, the
number of status Update calls performed, and the (requeue, error) pair the
Go step returns. -/
structure StepResult where
  nab : NonAdminBackup
  store : Option VeleroBackup
  createdBackup : Option VeleroBackup
  statusWrites : Nat
  requeue : Bool
  err : Option ReconcileError
deriving DecidableEq

/-- The Accepted=True condition literal written by validateSpec. -/
def acceptedTrueCondition : Condition :=
  { condType := NonAdminConditionAccepted, status := ConditionTrue,
    reason := "BackupAccepted", message := "backup accepted",
    observedGeneration := 0, lastTransitionTime := 0 }

/-- The Accepted=False condition literal written by validateSpec on a
validation error with the given message. -/
def acceptedFalseCondition (msg : String) : Condition :=
  { condType := NonAdminConditionAccepted, status := ConditionFalse,
    reason := "InvalidBackupSpec", message := msg,
    observedGeneration := 0, lastTransitionTime := 0 }

/-- The Queued=True condition literal written by
syncVeleroBackupWithNonAdminBackup. -/
def queuedTrueCondition : Condition :=
  { condType := NonAdminConditionQueued, status := ConditionTrue,
    reason := "BackupScheduled", message := "Created Velero Backup object",
    observedGeneration := 0, lastTransitionTime := 0 }

/-- init step: if the phase is empty set it to New; on a change persist and
requeue, otherwise no-op. -/
def init (nab : NonAdminBackup) (store : Option VeleroBackup) : StepResult :=
  if nab.status.phase = EmptyString then
    let p := updateNonAdminPhase nab.status.phase NonAdminBackupPhaseNew
    if p.2 then
      { nab := { nab with status := { nab.status with phase := p.1 } },
        store := store, createdBackup := none, statusWrites := 1,
        requeue := true, err := none }
    else
      { nab := nab, store := store, createdBackup := none, statusWrites := 0,
        requeue := false, err := none }
  else
    { nab := nab, store := store, createdBackup := none, statusWrites := 0,
      requeue := false, err := none }

/-- validateSpec step: on a validation error set phase BackingOff and
Accepted=False, persist if changed, and return a terminal error; on success
set Accepted=True, and if that changed persist and requeue. -/
def validateSpec (nab : NonAdminBackup) (store : Option VeleroBackup)
    (now : Nat) : StepResult :=
  match ValidateBackupSpec nab with
  | some msg =>
      let p := updateNonAdminPhase nab.status.phase NonAdminBackupPhaseBackingOff
      let c := SetStatusCondition nab.status.conditions
        (acceptedFalseCondition msg) now
      let nab2 := { nab with status :=
        { nab.status with phase := p.1, conditions := c.1 } }
      { nab := nab2, store := store, createdBackup := none,
        statusWrites := if p.2 || c.2 then 1 else 0,
        requeue := false, err := some (ReconcileError.terminal msg) }
  | none =>
      let c := SetStatusCondition nab.status.conditions acceptedTrueCondition now
      let nab2 := { nab with status := { nab.status with conditions := c.1 } }
      if c.2 then
        { nab := nab2, store := store, createdBackup := none,
          statusWrites := 1, requeue := true, err := none }
      else
        { nab := nab2, store := store, createdBackup := none,
          statusWrites := 0, requeue := false, err := none }

/-- The straight-line tail of syncVeleroBackupWithNonAdminBackup (source
lines 236 to 270), run both after a create and on an already found backup:
phase to Created, Queued=True, reference identity; if any of the three
changed, persist and exit; otherwise compare and sync the status snapshot,
persisting only on change. Never requeues, never errors. -/
def syncStatusBlock (nab : NonAdminBackup) (veleroBackup : VeleroBackup)
    (createdBackup : Option VeleroBackup) (now : Nat) : StepResult :=
  let p := updateNonAdminPhase nab.status.phase NonAdminBackupPhaseCreated
  let c := SetStatusCondition nab.status.conditions queuedTrueCondition now
  let status1 : NonAdminBackupStatus :=
    { phase := p.1, conditions := c.1,
      veleroBackup := nab.status.veleroBackup }
  let ref := updateNonAdminBackupVeleroBackupReference status1 veleroBackup
  let st := updateNonAdminBackupVeleroBackupStatus ref.1 veleroBackup
  let bookkeeping := p.2 || c.2 || ref.2
  { nab := { nab with status := if bookkeeping then ref.1 else st.1 },
    store := some veleroBackup,
    createdBackup := createdBackup,
    statusWrites := if bookkeeping then 1 else if st.2 then 1 else 0,
    requeue := false, err := none }

/-- The execution object the sync step creates when none is found: a deep
copy of the request backup spec with IncludedNamespaces overwritten to
exactly the request namespace, the system labels, the trace annotations, and
a zero status. -/
def createdVeleroBackup (oadpNamespace : String) (nab : NonAdminBackup) :
    VeleroBackup :=
  let backupSpec :=
    { nab.spec.backupSpec with includedNamespaces := [nab.nspace] }
  { name := GenerateVeleroBackupName nab.nspace nab.name,
    nspace := oadpNamespace,
    labels := GetNonAdminLabels,
    annotations := GetNonAdminBackupAnnotations nab.nspace nab.name,
    spec := backupSpec, status := zeroBackupStatus }

/-- syncVeleroBackupWithNonAdminBackup step: derive the execution-object
name (error when empty); fetch the execution object at that key; when not
found, create it; then in all non-error cases run the status block. -/
def syncVeleroBackupWithNonAdminBackup (oadpNamespace : String)
    (nab : NonAdminBackup) (store : Option VeleroBackup) (now : Nat) :
    StepResult :=
  let veleroBackupName := GenerateVeleroBackupName nab.nspace nab.name
  if veleroBackupName = EmptyString then
    { nab := nab, store := store, createdBackup := none, statusWrites := 0,
      requeue := false,
      err := some (ReconcileError.plain "unable to generate Velero Backup name") }
  else
    match store with
    | none =>
        let veleroBackup := createdVeleroBackup oadpNamespace nab
        syncStatusBlock nab veleroBackup (some veleroBackup) now
    | some veleroBackup =>
        syncStatusBlock nab veleroBackup none now

/-- Outcome of a whole Reconcile invocation. -/
inductive ReconcileOutcome where
  | done
  | requeue
  | failed (e : ReconcileError)
deriving DecidableEq

/-- Result of a whole Reconcile invocation: final request object and store,
the execution object created during the pass if any, total status writes,
and the outcome. -/
structure ReconcileResult where
  nab : NonAdminBackup
  store : Option VeleroBackup
  createdBackup : Option VeleroBackup
  statusWrites : Nat
  outcome : ReconcileOutcome
deriving DecidableEq

/-- Reconcile: run init, validateSpec, syncVeleroBackupWithNonAdminBackup in
order, aborting on the first error and stopping on the first requeue. -/
def Reconcile (oadpNamespace : String) (nab : NonAdminBackup)
    (store : Option VeleroBackup) (now : Nat) : ReconcileResult :=
  let r1 := init nab store
  match r1.err with
  | some e =>
      { nab := r1.nab, store := r1.store, createdBackup := r1.createdBackup,
        statusWrites := r1.statusWrites, outcome := ReconcileOutcome.failed e }
  | none =>
    if r1.requeue then
      { nab := r1.nab, store := r1.store, createdBackup := r1.createdBackup,
        statusWrites := r1.statusWrites, outcome := ReconcileOutcome.requeue }
    else
      let r2 := validateSpec r1.nab r1.store now
      match r2.err with
      | some e =>
          { nab := r2.nab, store := r2.store,
            createdBackup := r2.createdBackup,
            statusWrites := r1.statusWrites + r2.statusWrites,
            outcome := ReconcileOutcome.failed e }
      | none =>
        if r2.requeue then
          { nab := r2.nab, store := r2.store,
            createdBackup := r2.createdBackup,
            statusWrites := r1.statusWrites + r2.statusWrites,
            outcome := ReconcileOutcome.requeue }
        else
          let r3 := syncVeleroBackupWithNonAdminBackup oadpNamespace r2.nab
            r2.store now
          match r3.err with
          | some e =>
              { nab := r3.nab, store := r3.store,
                createdBackup := r3.createdBackup,
                statusWrites := r1.statusWrites + r2.statusWrites + r3.statusWrites,
                outcome := ReconcileOutcome.failed e }
          | none =>
            if r3.requeue then
              { nab := r3.nab, store := r3.store,
                createdBackup := r3.createdBackup,
                statusWrites := r1.statusWrites + r2.statusWrites + r3.statusWrites,
                outcome := ReconcileOutcome.requeue }
            else
              { nab := r3.nab, store := r3.store,
                createdBackup := r3.createdBackup,
                statusWrites := r1.statusWrites + r2.statusWrites + r3.statusWrites,
                outcome := ReconcileOutcome.done }

/-- Iterated reconciles with no external change in between. -/
def runReconciles (oadpNamespace : String) (nab : NonAdminBackup)
    (store : Option VeleroBackup) (now : Nat) :
    Nat → NonAdminBackup × Option VeleroBackup
  | 0 => (nab, store)
  | k + 1 =>
      let s := runReconciles oadpNamespace nab store now k
      let r := Reconcile oadpNamespace s.1 s.2 now
      (r.nab, r.store)

/-- NonAdminBackupPredicate.Create: accepts every Create event. -/
def nonAdminBackupPredicateCreate (_obj : NonAdminBackup) : Bool := true

/-- NonAdminBackupPredicate.Update: accepts an Update event exactly when the
generation changed. -/
def nonAdminBackupPredicateUpdate (objOld objNew : NonAdminBackup) : Bool :=
  objNew.generation != objOld.generation

/-- NonAdminBackupPredicate.Delete: accepts every Delete event. -/
def nonAdminBackupPredicateDelete (_obj : NonAdminBackup) : Bool := true

/-- One-reconcile phase transitions the spec allows: stay put, empty to New,
or New to Created or BackingOff. -/
def phaseStepAllowed (p q : NonAdminBackupPhase) : Prop :=
  p = q ∨ (p = EmptyString ∧ q = NonAdminBackupPhaseNew) ∨
    (p = NonAdminBackupPhaseNew ∧
      (q = NonAdminBackupPhaseCreated ∨ q = NonAdminBackupPhaseBackingOff))

instance (p q : NonAdminBackupPhase) : Decidable (phaseStepAllowed p q) := by
  unfold phaseStepAllowed; infer_instance

/-- Invariant of states reachable by reconciles that never change the spec:
with an invalid spec the phase stays in the empty, New, BackingOff range;
with a valid spec it stays in the empty, New, Created range. -/
def reachableInv (nab : NonAdminBackup) : Prop :=
  ((ValidateBackupSpec nab).isSome ∧
    (nab.status.phase = EmptyString ∨
     nab.status.phase = NonAdminBackupPhaseNew ∨
     nab.status.phase = NonAdminBackupPhaseBackingOff)) ∨
  (ValidateBackupSpec nab = none ∧
    (nab.status.phase = EmptyString ∨
     nab.status.phase = NonAdminBackupPhaseNew ∨
     nab.status.phase = NonAdminBackupPhaseCreated))

/-- Bookkeeping of the sync step is complete for this request and execution
object: phase Created, the Queued condition exactly as the engine writes it,
and the reference identity matching the execution object. -/
def syncBookkeepingDone (nab : NonAdminBackup) (vb : VeleroBackup) : Prop :=
  nab.status.phase = NonAdminBackupPhaseCreated ∧
  (∀ m, SetStatusCondition nab.status.conditions queuedTrueCondition m =
    (nab.status.conditions, false)) ∧
  ∃ r, nab.status.veleroBackup = some r ∧
    r.name = vb.name ∧ r.nspace = vb.nspace

/-- The stored reference status snapshot equals the live execution-object
status. -/
def snapshotCurrent (nab : NonAdminBackup) (vb : VeleroBackup) : Prop :=
  ∃ r, nab.status.veleroBackup = some r ∧ r.status = some vb.status

/-- A well-formed valid request: valid spec, phase New, Accepted=True, no
reference yet, used to exhibit the write behaviour of two consecutive sync
invocations. -/
def c2Nab : NonAdminBackup :=
  { name := "backup1", nspace := "tenant1", generation := 1,
    spec := { backupSpec := { includedNamespaces := [], otherFields := "ttl-30d" } },
    status := { phase := NonAdminBackupPhaseNew,
                conditions := [{ condType := NonAdminConditionAccepted,
                                 status := ConditionTrue,
                                 reason := "BackupAccepted",
                                 message := "backup accepted",
                                 observedGeneration := 0,
                                 lastTransitionTime := 1 }],
                veleroBackup := none } }

/-- First sync invocation on c2Nab: creates the execution object and writes
the bookkeeping status. -/
def c2Run1 : StepResult :=
  syncVeleroBackupWithNonAdminBackup "oadp-ns" c2Nab none 2

/-- Second sync invocation, no external change in between. -/
def c2Run2 : StepResult :=
  syncVeleroBackupWithNonAdminBackup "oadp-ns" c2Run1.nab c2Run1.store 3

/-- Third sync invocation, no external change in between. -/
def c2Run3 : StepResult :=
  syncVeleroBackupWithNonAdminBackup "oadp-ns" c2Run2.nab c2Run2.store 4

/-- An invalid backup spec: the embedded spec lists namespaces itself. -/
def c3InvalidSpec : BackupSpec :=
  { includedNamespaces := ["tenant3", "other"], otherFields := "" }

/-- A valid backup spec. -/
def c3ValidSpec : BackupSpec :=
  { includedNamespaces := [], otherFields := "" }

/-- Fresh request with an invalid spec. -/
def c3Start : NonAdminBackup :=
  { name := "backup3", nspace := "tenant3", generation := 1,
    spec := { backupSpec := c3InvalidSpec },
    status := { phase := EmptyString, conditions := [], veleroBackup := none } }

/-- First reconcile on the fresh invalid request: initializes the phase. -/
def c3R1 : ReconcileResult := Reconcile "oadp-ns" c3Start none 1

/-- Second reconcile: validation fails, phase goes to BackingOff. -/
def c3R2 : ReconcileResult := Reconcile "oadp-ns" c3R1.nab c3R1.store 2

/-- The tenant fixes the spec (external spec change, generation bump);
status is untouched by the API layer. -/
def c3Fixed : NonAdminBackup :=
  { c3R2.nab with generation := 2, spec := { backupSpec := c3ValidSpec } }

/-- Third reconcile: validation now succeeds, Accepted flips to True. -/
def c3R3 : ReconcileResult := Reconcile "oadp-ns" c3Fixed c3R2.store 3

/-- Fourth reconcile: the sync step runs and sets phase Created. -/
def c3R4 : ReconcileResult := Reconcile "oadp-ns" c3R3.nab c3R3.store 4

/-- The Queued condition literal with a concrete transition time, as it sits
in a steady-state request status. -/
def c5QueuedCond : Condition :=
  { condType := NonAdminConditionQueued, status := ConditionTrue,
    reason := "BackupScheduled", message := "Created Velero Backup object",
    observedGeneration := 0, lastTransitionTime := 2 }

/-- A stale reference snapshot. -/
def c5RefStatus : BackupStatus := { phase := "InProgress", otherFields := "" }

/-- A request whose bookkeeping is complete and whose reference snapshot is
set, while the execution object is gone from the store (deleted
externally). -/
def c5Nab : NonAdminBackup :=
  { name := "backup5", nspace := "tenant5", generation := 1,
    spec := { backupSpec := { includedNamespaces := [], otherFields := "" } },
    status := { phase := NonAdminBackupPhaseCreated,
                conditions := [c5QueuedCond],
                veleroBackup := some { name := "nab-tenant5-backup5",
                                       nspace := "oadp-ns",
                                       status := some c5RefStatus } } }

/-- Sync invocation on c5Nab with no execution object in the store. -/
def c5Run : StepResult :=
  syncVeleroBackupWithNonAdminBackup "oadp-ns" c5Nab none 4

/-- A well-formed valid request used to exhibit a sync invocation that
persists a status mutation yet does not requeue. -/
def c7Nab : NonAdminBackup :=
  { name := "backup7", nspace := "tenant7", generation := 1,
    spec := { backupSpec := { includedNamespaces := [], otherFields := "" } },
    status := { phase := NonAdminBackupPhaseNew,
                conditions := [{ condType := NonAdminConditionAccepted,
                                 status := ConditionTrue,
                                 reason := "BackupAccepted",
                                 message := "backup accepted",
                                 observedGeneration := 0,
                                 lastTransitionTime := 1 }],
                veleroBackup := none } }

/-- Sync invocation on c7Nab: create plus bookkeeping status write. -/
def c7Run : StepResult :=
  syncVeleroBackupWithNonAdminBackup "oadp-ns" c7Nab none 5

theorem updateNonAdminPhase_to (ph newPhase : NonAdminBackupPhase)
    (h : newPhase ≠ EmptyString) :
    (updateNonAdminPhase ph newPhase).1 = newPhase := by
  unfold updateNonAdminPhase
  rw [if_neg h]
  by_cases h2 : ph = newPhase
  · rw [if_pos h2]; exact h2
  · rw [if_neg h2]

theorem updateNonAdminPhase_noop (ph newPhase : NonAdminBackupPhase)
    (h : ph = newPhase) :
    updateNonAdminPhase ph newPhase = (ph, false) := by
  unfold updateNonAdminPhase
  by_cases h1 : newPhase = EmptyString
  · rw [if_pos h1]
  · rw [if_neg h1, if_pos h]

theorem updateNonAdminPhase_false_unchanged (ph newPhase : NonAdminBackupPhase)
    (h : (updateNonAdminPhase ph newPhase).2 = false) :
    (updateNonAdminPhase ph newPhase).1 = ph := by
  unfold updateNonAdminPhase at h ⊢
  split_ifs at h ⊢ <;> simp_all

theorem updateNonAdminPhase_changed_iff (ph newPhase : NonAdminBackupPhase) :
    (updateNonAdminPhase ph newPhase).2 = true ↔
      (updateNonAdminPhase ph newPhase).1 ≠ ph := by
  unfold updateNonAdminPhase
  split_ifs with h1 h2 <;> simp_all
  exact fun h => h2 h.symm

theorem updateNonAdminPhase_ne_empty (ph newPhase : NonAdminBackupPhase)
    (h : ph ≠ EmptyString) :
    (updateNonAdminPhase ph newPhase).1 ≠ EmptyString := by
  unfold updateNonAdminPhase
  split_ifs with h1 h2 <;> simp_all

theorem mergeCondition_condType (e c : Condition) (now : Nat) :
    ((mergeCondition e c now).1).condType = e.condType := by
  unfold mergeCondition
  by_cases h1 : e.status = c.status <;>
  by_cases h2 : e.reason = c.reason <;>
  by_cases h3 : e.message = c.message <;>
  by_cases h4 : e.observedGeneration = c.observedGeneration <;>
  by_cases h5 : c.lastTransitionTime = 0 <;>
  simp [h1, h2, h3, h4, h5]

theorem mergeCondition_status (e c : Condition) (now : Nat) :
    ((mergeCondition e c now).1).status = c.status := by
  unfold mergeCondition
  by_cases h1 : e.status = c.status <;>
  by_cases h2 : e.reason = c.reason <;>
  by_cases h3 : e.message = c.message <;>
  by_cases h4 : e.observedGeneration = c.observedGeneration <;>
  by_cases h5 : c.lastTransitionTime = 0 <;>
  simp [h1, h2, h3, h4, h5]

theorem mergeCondition_reason (e c : Condition) (now : Nat) :
    ((mergeCondition e c now).1).reason = c.reason := by
  unfold mergeCondition
  by_cases h1 : e.status = c.status <;>
  by_cases h2 : e.reason = c.reason <;>
  by_cases h3 : e.message = c.message <;>
  by_cases h4 : e.observedGeneration = c.observedGeneration <;>
  by_cases h5 : c.lastTransitionTime = 0 <;>
  simp [h1, h2, h3, h4, h5]

theorem mergeCondition_message (e c : Condition) (now : Nat) :
    ((mergeCondition e c now).1).message = c.message := by
  unfold mergeCondition
  by_cases h1 : e.status = c.status <;>
  by_cases h2 : e.reason = c.reason <;>
  by_cases h3 : e.message = c.message <;>
  by_cases h4 : e.observedGeneration = c.observedGeneration <;>
  by_cases h5 : c.lastTransitionTime = 0 <;>
  simp [h1, h2, h3, h4, h5]

theorem mergeCondition_obsGen (e c : Condition) (now : Nat) :
    ((mergeCondition e c now).1).observedGeneration = c.observedGeneration := by
  unfold mergeCondition
  by_cases h1 : e.status = c.status <;>
  by_cases h2 : e.reason = c.reason <;>
  by_cases h3 : e.message = c.message <;>
  by_cases h4 : e.observedGeneration = c.observedGeneration <;>
  by_cases h5 : c.lastTransitionTime = 0 <;>
  simp [h1, h2, h3, h4, h5]

theorem mergeCondition_noop (e c : Condition) (now : Nat)
    (h1 : e.status = c.status) (h2 : e.reason = c.reason)
    (h3 : e.message = c.message)
    (h4 : e.observedGeneration = c.observedGeneration) :
    mergeCondition e c now = (e, false) := by
  unfold mergeCondition
  simp [h1, h2, h3, h4]

theorem mergeCondition_changed_false (e c : Condition) (now : Nat)
    (h : (mergeCondition e c now).2 = false) :
    (mergeCondition e c now).1 = e := by
  unfold mergeCondition at h ⊢
  by_cases h1 : e.status = c.status <;>
  by_cases h2 : e.reason = c.reason <;>
  by_cases h3 : e.message = c.message <;>
  by_cases h4 : e.observedGeneration = c.observedGeneration <;>
  by_cases h5 : c.lastTransitionTime = 0 <;>
  simp_all

theorem mergeCondition_eq_self (e c : Condition) (now : Nat)
    (h : (mergeCondition e c now).1 = e) :
    (mergeCondition e c now).2 = false := by
  have hs := mergeCondition_status e c now
  have hr := mergeCondition_reason e c now
  have hm := mergeCondition_message e c now
  have hg := mergeCondition_obsGen e c now
  rw [h] at hs hr hm hg
  rw [mergeCondition_noop e c now hs hr hm hg]

theorem mergeCondition_idem (e c : Condition) (now now2 : Nat) :
    mergeCondition (mergeCondition e c now).1 c now2 =
      ((mergeCondition e c now).1, false) :=
  mergeCondition_noop _ c now2 (mergeCondition_status e c now)
    (mergeCondition_reason e c now) (mergeCondition_message e c now)
    (mergeCondition_obsGen e c now)

theorem SetStatusCondition_false_unchanged (conds : List Condition)
    (c : Condition) (now : Nat)
    (h : (SetStatusCondition conds c now).2 = false) :
    (SetStatusCondition conds c now).1 = conds := by
  induction conds with
  | nil => simp [SetStatusCondition] at h
  | cons head rest ih =>
      by_cases ht : head.condType = c.condType
      · simp only [SetStatusCondition, if_pos ht] at h ⊢
        rw [mergeCondition_changed_false head c now h]
      · simp only [SetStatusCondition, if_neg ht] at h ⊢
        rw [ih h]

theorem SetStatusCondition_eq_self (conds : List Condition) (c : Condition)
    (now : Nat) (h : (SetStatusCondition conds c now).1 = conds) :
    (SetStatusCondition conds c now).2 = false := by
  induction conds with
  | nil => simp [SetStatusCondition] at h
  | cons head rest ih =>
      by_cases ht : head.condType = c.condType
      · simp only [SetStatusCondition, if_pos ht] at h ⊢
        exact mergeCondition_eq_self head c now (List.head_eq_of_cons_eq h)
      · simp only [SetStatusCondition, if_neg ht] at h ⊢
        exact ih (List.tail_eq_of_cons_eq h)

theorem SetStatusCondition_idem (conds : List Condition) (c : Condition)
    (now now2 : Nat) :
    SetStatusCondition (SetStatusCondition conds c now).1 c now2 =
      ((SetStatusCondition conds c now).1, false) := by
  induction conds with
  | nil =>
      by_cases ht : c.lastTransitionTime = 0
      · simp [SetStatusCondition, ht,
          mergeCondition_noop ({ c with lastTransitionTime := now }) c now2
            rfl rfl rfl rfl]
      · simp [SetStatusCondition, ht,
          mergeCondition_noop c c now2 rfl rfl rfl rfl]
  | cons head rest ih =>
      by_cases ht : head.condType = c.condType
      · have htm : ((mergeCondition head c now).1).condType = c.condType := by
          rw [mergeCondition_condType]; exact ht
        simp only [SetStatusCondition, if_pos ht, if_pos htm]
        rw [mergeCondition_idem head c now now2]
      · simp only [SetStatusCondition, if_neg ht]
        rw [ih]

theorem SetStatusCondition_find_post (conds : List Condition) (c : Condition)
    (now : Nat) :
    ∃ d, FindStatusCondition (SetStatusCondition conds c now).1 c.condType =
        some d ∧
      d.status = c.status ∧ d.reason = c.reason ∧ d.message = c.message ∧
      d.observedGeneration = c.observedGeneration := by
  induction conds with
  | nil =>
      by_cases ht : c.lastTransitionTime = 0
      · refine ⟨{ c with lastTransitionTime := now }, ?_, rfl, rfl, rfl, rfl⟩
        simp [SetStatusCondition, ht, FindStatusCondition]
      · refine ⟨c, ?_, rfl, rfl, rfl, rfl⟩
        simp [SetStatusCondition, ht, FindStatusCondition]
  | cons head rest ih =>
      by_cases ht : head.condType = c.condType
      · refine ⟨(mergeCondition head c now).1, ?_, mergeCondition_status _ _ _,
          mergeCondition_reason _ _ _, mergeCondition_message _ _ _,
          mergeCondition_obsGen _ _ _⟩
        simp only [SetStatusCondition, if_pos ht, FindStatusCondition]
        rw [List.find?_cons_of_pos]
        simp [mergeCondition_condType, ht]
      · obtain ⟨d, hfind, hs, hr, hm, hg⟩ := ih
        refine ⟨d, ?_, hs, hr, hm, hg⟩
        simp only [SetStatusCondition, if_neg ht, FindStatusCondition] at hfind ⊢
        rw [List.find?_cons_of_neg]
        · exact hfind
        · simp [ht]

theorem SetStatusCondition_noop_of_find (conds : List Condition)
    (c d : Condition) (now : Nat)
    (hfind : FindStatusCondition conds c.condType = some d)
    (hs : d.status = c.status) (hr : d.reason = c.reason)
    (hm : d.message = c.message)
    (hg : d.observedGeneration = c.observedGeneration) :
    SetStatusCondition conds c now = (conds, false) := by
  induction conds with
  | nil => simp [FindStatusCondition] at hfind
  | cons head rest ih =>
      by_cases ht : head.condType = c.condType
      · have hd : head = d := by
          simp only [FindStatusCondition] at hfind
          rw [List.find?_cons_of_pos] at hfind
          · exact Option.some_injective _ hfind
          · simp [ht]
        subst hd
        simp only [SetStatusCondition, if_pos ht]
        rw [mergeCondition_noop head c now hs hr hm hg]
      · have hfind2 : FindStatusCondition rest c.condType = some d := by
          simp only [FindStatusCondition] at hfind ⊢
          rw [List.find?_cons_of_neg] at hfind
          · exact hfind
          · simp [ht]
        simp only [SetStatusCondition, if_neg ht]
        rw [ih hfind2]

theorem refUpdate_phase (st : NonAdminBackupStatus) (vb : VeleroBackup) :
    ((updateNonAdminBackupVeleroBackupReference st vb).1).phase = st.phase := by
  unfold updateNonAdminBackupVeleroBackupReference
  split
  · rfl
  · split_ifs <;> rfl

theorem refUpdate_conditions (st : NonAdminBackupStatus) (vb : VeleroBackup) :
    ((updateNonAdminBackupVeleroBackupReference st vb).1).conditions =
      st.conditions := by
  unfold updateNonAdminBackupVeleroBackupReference
  split
  · rfl
  · split_ifs <;> rfl

theorem refUpdate_identity (st : NonAdminBackupStatus) (vb : VeleroBackup) :
    ∃ r, ((updateNonAdminBackupVeleroBackupReference st vb).1).veleroBackup =
        some r ∧ r.name = vb.name ∧ r.nspace = vb.nspace := by
  unfold updateNonAdminBackupVeleroBackupReference
  split
  · exact ⟨_, rfl, rfl, rfl⟩
  · rename_i ref heq
    split_ifs with h2
    · exact ⟨_, rfl, rfl, rfl⟩
    · push_neg at h2
      exact ⟨ref, by simp [heq], h2.1, h2.2⟩

theorem refUpdate_noop (st : NonAdminBackupStatus) (vb : VeleroBackup)
    (r : VeleroBackupRef) (h : st.veleroBackup = some r)
    (hn : r.name = vb.name) (hns : r.nspace = vb.nspace) :
    updateNonAdminBackupVeleroBackupReference st vb = (st, false) := by
  unfold updateNonAdminBackupVeleroBackupReference
  rw [h]
  simp [hn, hns]

theorem refUpdate_false_inv (st : NonAdminBackupStatus) (vb : VeleroBackup)
    (h : (updateNonAdminBackupVeleroBackupReference st vb).2 = false) :
    ∃ r, st.veleroBackup = some r ∧ r.name = vb.name ∧
      r.nspace = vb.nspace := by
  unfold updateNonAdminBackupVeleroBackupReference at h
  split at h
  · simp at h
  · rename_i ref heq
    split_ifs at h with h2
    push_neg at h2
    exact ⟨ref, heq, h2.1, h2.2⟩

theorem refUpdate_false_unchanged (st : NonAdminBackupStatus)
    (vb : VeleroBackup)
    (h : (updateNonAdminBackupVeleroBackupReference st vb).2 = false) :
    (updateNonAdminBackupVeleroBackupReference st vb).1 = st := by
  obtain ⟨r, hr, hn, hns⟩ := refUpdate_false_inv st vb h
  rw [refUpdate_noop st vb r hr hn hns]

theorem stUpdate_phase (st : NonAdminBackupStatus) (vb : VeleroBackup) :
    ((updateNonAdminBackupVeleroBackupStatus st vb).1).phase = st.phase := by
  unfold updateNonAdminBackupVeleroBackupStatus
  split
  · rfl
  · split_ifs <;> rfl

theorem stUpdate_conditions (st : NonAdminBackupStatus) (vb : VeleroBackup) :
    ((updateNonAdminBackupVeleroBackupStatus st vb).1).conditions =
      st.conditions := by
  unfold updateNonAdminBackupVeleroBackupStatus
  split
  · rfl
  · split_ifs <;> rfl

theorem stUpdate_post (st : NonAdminBackupStatus) (vb : VeleroBackup) :
    ∃ r, ((updateNonAdminBackupVeleroBackupStatus st vb).1).veleroBackup =
        some r ∧ r.status = some vb.status := by
  unfold updateNonAdminBackupVeleroBackupStatus
  split
  · exact ⟨_, rfl, rfl⟩
  · rename_i ref heq
    split_ifs with h2
    · exact ⟨_, rfl, rfl⟩
    · push_neg at h2
      exact ⟨ref, by simp [heq], h2⟩

theorem stUpdate_identity (st : NonAdminBackupStatus) (vb : VeleroBackup)
    (r : VeleroBackupRef) (h : st.veleroBackup = some r) :
    ∃ r2, ((updateNonAdminBackupVeleroBackupStatus st vb).1).veleroBackup =
        some r2 ∧ r2.name = r.name ∧ r2.nspace = r.nspace ∧
      r2.status = some vb.status := by
  unfold updateNonAdminBackupVeleroBackupStatus
  rw [h]
  by_cases h2 : r.status = some vb.status
  · simp only [h2]
    simp
    exact ⟨r, by simp [h], rfl, rfl, h2⟩
  · simp [h2]

theorem stUpdate_noop (st : NonAdminBackupStatus) (vb : VeleroBackup)
    (r : VeleroBackupRef) (h : st.veleroBackup = some r)
    (hs : r.status = some vb.status) :
    updateNonAdminBackupVeleroBackupStatus st vb = (st, false) := by
  unfold updateNonAdminBackupVeleroBackupStatus
  rw [h]
  simp [hs]

theorem GenerateVeleroBackupName_ne_empty (nspace name : String) :
    GenerateVeleroBackupName nspace name ≠ EmptyString := by
  unfold GenerateVeleroBackupName EmptyString
  intro h
  have hlen := congrArg String.length h
  simp [String.length_append] at hlen
  exact absurd hlen.1.1.1 (by decide)

theorem ssb_err (nab : NonAdminBackup) (vb : VeleroBackup)
    (cb : Option VeleroBackup) (now : Nat) :
    (syncStatusBlock nab vb cb now).err = none := rfl

theorem ssb_requeue (nab : NonAdminBackup) (vb : VeleroBackup)
    (cb : Option VeleroBackup) (now : Nat) :
    (syncStatusBlock nab vb cb now).requeue = false := rfl

theorem ssb_store (nab : NonAdminBackup) (vb : VeleroBackup)
    (cb : Option VeleroBackup) (now : Nat) :
    (syncStatusBlock nab vb cb now).store = some vb := rfl

theorem ssb_created (nab : NonAdminBackup) (vb : VeleroBackup)
    (cb : Option VeleroBackup) (now : Nat) :
    (syncStatusBlock nab vb cb now).createdBackup = cb := rfl

theorem ssb_spec (nab : NonAdminBackup) (vb : VeleroBackup)
    (cb : Option VeleroBackup) (now : Nat) :
    (syncStatusBlock nab vb cb now).nab.spec = nab.spec := rfl

theorem ssb_phase (nab : NonAdminBackup) (vb : VeleroBackup)
    (cb : Option VeleroBackup) (now : Nat) :
    (syncStatusBlock nab vb cb now).nab.status.phase =
      NonAdminBackupPhaseCreated := by
  have hCreated : NonAdminBackupPhaseCreated ≠ EmptyString := by decide
  unfold syncStatusBlock
  dsimp only
  split_ifs
  · rw [refUpdate_phase]
    exact updateNonAdminPhase_to _ _ hCreated
  · rw [stUpdate_phase, refUpdate_phase]
    exact updateNonAdminPhase_to _ _ hCreated

theorem ssb_conditions (nab : NonAdminBackup) (vb : VeleroBackup)
    (cb : Option VeleroBackup) (now : Nat) :
    (syncStatusBlock nab vb cb now).nab.status.conditions =
      (SetStatusCondition nab.status.conditions queuedTrueCondition now).1 := by
  unfold syncStatusBlock
  dsimp only
  split_ifs
  · rw [refUpdate_conditions]
  · rw [stUpdate_conditions, refUpdate_conditions]

theorem ssb_ref_identity (nab : NonAdminBackup) (vb : VeleroBackup)
    (cb : Option VeleroBackup) (now : Nat) :
    ∃ r, (syncStatusBlock nab vb cb now).nab.status.veleroBackup = some r ∧
      r.name = vb.name ∧ r.nspace = vb.nspace := by
  unfold syncStatusBlock
  dsimp only
  split_ifs with hbk
  · exact refUpdate_identity _ vb
  · have hrefFalse : (updateNonAdminBackupVeleroBackupReference
        { phase := (updateNonAdminPhase nab.status.phase
            NonAdminBackupPhaseCreated).1,
          conditions := (SetStatusCondition nab.status.conditions
            queuedTrueCondition now).1,
          veleroBackup := nab.status.veleroBackup } vb).2 = false := by
      simp only [Bool.or_eq_true, not_or, Bool.not_eq_true] at hbk
      exact hbk.2
    rw [refUpdate_false_unchanged _ vb hrefFalse]
    obtain ⟨r0, hr0, hn0, hns0⟩ := refUpdate_false_inv _ vb hrefFalse
    obtain ⟨r2, hr2, hn2, hns2, _⟩ := stUpdate_identity _ vb r0 hr0
    exact ⟨r2, hr2, hn2.trans hn0, hns2.trans hns0⟩

theorem ssb_done (nab : NonAdminBackup) (vb : VeleroBackup)
    (cb : Option VeleroBackup) (now : Nat) :
    syncBookkeepingDone (syncStatusBlock nab vb cb now).nab vb := by
  refine ⟨ssb_phase nab vb cb now, ?_, ssb_ref_identity nab vb cb now⟩
  intro m
  rw [ssb_conditions nab vb cb now]
  exact SetStatusCondition_idem nab.status.conditions queuedTrueCondition now m

theorem NonAdminBackupStatus.eta (st : NonAdminBackupStatus) :
    ({ phase := st.phase, conditions := st.conditions,
       veleroBackup := st.veleroBackup } : NonAdminBackupStatus) = st := rfl

theorem ssb_of_done (nab : NonAdminBackup) (vb : VeleroBackup)
    (cb : Option VeleroBackup) (now : Nat)
    (h : syncBookkeepingDone nab vb) :
    syncStatusBlock nab vb cb now =
      { nab := { nab with status :=
          (updateNonAdminBackupVeleroBackupStatus nab.status vb).1 },
        store := some vb, createdBackup := cb,
        statusWrites :=
          if (updateNonAdminBackupVeleroBackupStatus nab.status vb).2 then 1
          else 0,
        requeue := false, err := none } := by
  obtain ⟨hph, hconds, r, hr, hn, hns⟩ := h
  unfold syncStatusBlock
  rw [updateNonAdminPhase_noop _ _ hph, hconds now]
  dsimp only
  rw [NonAdminBackupStatus.eta, refUpdate_noop nab.status vb r hr hn hns]
  simp

theorem ssb_noop (nab : NonAdminBackup) (vb : VeleroBackup)
    (cb : Option VeleroBackup) (now : Nat)
    (h : syncBookkeepingDone nab vb) (h2 : snapshotCurrent nab vb) :
    syncStatusBlock nab vb cb now =
      { nab := nab, store := some vb, createdBackup := cb, statusWrites := 0,
        requeue := false, err := none } := by
  obtain ⟨r, hr, hs⟩ := h2
  rw [ssb_of_done nab vb cb now h, stUpdate_noop nab.status vb r hr hs]
  simp

theorem sync_some (oadpNs : String) (nab : NonAdminBackup)
    (vb : VeleroBackup) (now : Nat) :
    syncVeleroBackupWithNonAdminBackup oadpNs nab (some vb) now =
      syncStatusBlock nab vb none now := by
  simp only [syncVeleroBackupWithNonAdminBackup]
  rw [if_neg (GenerateVeleroBackupName_ne_empty nab.nspace nab.name)]

theorem sync_none (oadpNs : String) (nab : NonAdminBackup) (now : Nat) :
    syncVeleroBackupWithNonAdminBackup oadpNs nab none now =
      syncStatusBlock nab (createdVeleroBackup oadpNs nab)
        (some (createdVeleroBackup oadpNs nab)) now := by
  simp only [syncVeleroBackupWithNonAdminBackup]
  rw [if_neg (GenerateVeleroBackupName_ne_empty nab.nspace nab.name)]

theorem sync_as_ssb (oadpNs : String) (nab : NonAdminBackup)
    (store : Option VeleroBackup) (now : Nat) :
    ∃ vb cb, syncVeleroBackupWithNonAdminBackup oadpNs nab store now =
        syncStatusBlock nab vb cb now ∧
      (syncVeleroBackupWithNonAdminBackup oadpNs nab store now).store =
        some vb := by
  cases store with
  | none =>
      exact ⟨_, _, sync_none oadpNs nab now,
        by rw [sync_none]; exact ssb_store _ _ _ _⟩
  | some vb =>
      exact ⟨vb, none, sync_some oadpNs nab vb now,
        by rw [sync_some]; exact ssb_store _ _ _ _⟩

theorem refUpdate_none (st : NonAdminBackupStatus) (vb : VeleroBackup)
    (h : st.veleroBackup = none) :
    updateNonAdminBackupVeleroBackupReference st vb =
      ({ st with
          veleroBackup := some { name := vb.name, nspace := vb.nspace, status := none } },
        true) := by
  unfold updateNonAdminBackupVeleroBackupReference
  rw [h]

theorem stUpdate_some_ne (st : NonAdminBackupStatus) (vb : VeleroBackup)
    (r : VeleroBackupRef) (h : st.veleroBackup = some r)
    (hne : r.status ≠ some vb.status) :
    updateNonAdminBackupVeleroBackupStatus st vb =
      ({ st with
          veleroBackup := some { r with status := some vb.status } },
        true) := by
  unfold updateNonAdminBackupVeleroBackupStatus
  rw [h]
  simp [hne]

theorem ssb_ref_none (nab : NonAdminBackup) (vb : VeleroBackup)
    (cb : Option VeleroBackup) (now : Nat)
    (h : nab.status.veleroBackup = none) :
    syncStatusBlock nab vb cb now =
      { nab := { nab with status :=
          { phase := (updateNonAdminPhase nab.status.phase
              NonAdminBackupPhaseCreated).1,
            conditions := (SetStatusCondition nab.status.conditions
              queuedTrueCondition now).1,
            veleroBackup :=
              some { name := vb.name, nspace := vb.nspace, status := none } } },
        store := some vb, createdBackup := cb, statusWrites := 1,
        requeue := false, err := none } := by
  unfold syncStatusBlock
  dsimp only
  unfold updateNonAdminBackupVeleroBackupReference
  dsimp only
  rw [h]
  simp

theorem ssb_snapshot_of_done (nab : NonAdminBackup) (vb : VeleroBackup)
    (cb : Option VeleroBackup) (now : Nat)
    (h : syncBookkeepingDone nab vb) :
    snapshotCurrent (syncStatusBlock nab vb cb now).nab vb := by
  rw [ssb_of_done nab vb cb now h]
  exact stUpdate_post nab.status vb

theorem sync_err_none (oadpNs : String) (nab : NonAdminBackup)
    (store : Option VeleroBackup) (now : Nat) :
    (syncVeleroBackupWithNonAdminBackup oadpNs nab store now).err = none := by
  obtain ⟨vb, cb, hs, _⟩ := sync_as_ssb oadpNs nab store now
  rw [hs]
  exact ssb_err _ _ _ _

theorem sync_requeue_false (oadpNs : String) (nab : NonAdminBackup)
    (store : Option VeleroBackup) (now : Nat) :
    (syncVeleroBackupWithNonAdminBackup oadpNs nab store now).requeue =
      false := by
  obtain ⟨vb, cb, hs, _⟩ := sync_as_ssb oadpNs nab store now
  rw [hs]
  exact ssb_requeue _ _ _ _

theorem sync_phase (oadpNs : String) (nab : NonAdminBackup)
    (store : Option VeleroBackup) (now : Nat) :
    (syncVeleroBackupWithNonAdminBackup oadpNs nab store now).nab.status.phase =
      NonAdminBackupPhaseCreated := by
  obtain ⟨vb, cb, hs, _⟩ := sync_as_ssb oadpNs nab store now
  rw [hs]
  exact ssb_phase _ _ _ _

theorem sync_spec (oadpNs : String) (nab : NonAdminBackup)
    (store : Option VeleroBackup) (now : Nat) :
    (syncVeleroBackupWithNonAdminBackup oadpNs nab store now).nab.spec =
      nab.spec := by
  obtain ⟨vb, cb, hs, _⟩ := sync_as_ssb oadpNs nab store now
  rw [hs]
  exact ssb_spec _ _ _ _

theorem init_empty (nab : NonAdminBackup) (store : Option VeleroBackup)
    (h : nab.status.phase = EmptyString) :
    init nab store =
      { nab := { nab with status :=
          { nab.status with phase := NonAdminBackupPhaseNew } },
        store := store, createdBackup := none, statusWrites := 1,
        requeue := true, err := none } := by
  have hupd : updateNonAdminPhase EmptyString NonAdminBackupPhaseNew =
      (NonAdminBackupPhaseNew, true) := by decide
  unfold init
  rw [if_pos h, h, hupd]
  simp

theorem init_nonempty (nab : NonAdminBackup) (store : Option VeleroBackup)
    (h : nab.status.phase ≠ EmptyString) :
    init nab store =
      { nab := nab, store := store, createdBackup := none, statusWrites := 0,
        requeue := false, err := none } := by
  unfold init
  rw [if_neg h]

theorem validateSpec_fail (nab : NonAdminBackup) (store : Option VeleroBackup)
    (now : Nat) (msg : String) (h : ValidateBackupSpec nab = some msg) :
    validateSpec nab store now =
      { nab := { nab with status := { nab.status with
          phase := (updateNonAdminPhase nab.status.phase
            NonAdminBackupPhaseBackingOff).1,
          conditions := (SetStatusCondition nab.status.conditions
            (acceptedFalseCondition msg) now).1 } },
        store := store, createdBackup := none,
        statusWrites :=
          if (updateNonAdminPhase nab.status.phase
                NonAdminBackupPhaseBackingOff).2 ||
              (SetStatusCondition nab.status.conditions
                (acceptedFalseCondition msg) now).2 then 1
          else 0,
        requeue := false, err := some (ReconcileError.terminal msg) } := by
  unfold validateSpec
  rw [h]

theorem validateSpec_ok_changed (nab : NonAdminBackup)
    (store : Option VeleroBackup) (now : Nat)
    (h : ValidateBackupSpec nab = none)
    (hc : (SetStatusCondition nab.status.conditions acceptedTrueCondition
      now).2 = true) :
    validateSpec nab store now =
      { nab := { nab with status := { nab.status with
          conditions := (SetStatusCondition nab.status.conditions
            acceptedTrueCondition now).1 } },
        store := store, createdBackup := none, statusWrites := 1,
        requeue := true, err := none } := by
  unfold validateSpec
  rw [h]
  simp [hc]

theorem validateSpec_ok_unchanged (nab : NonAdminBackup)
    (store : Option VeleroBackup) (now : Nat)
    (h : ValidateBackupSpec nab = none)
    (hc : (SetStatusCondition nab.status.conditions acceptedTrueCondition
      now).2 = false) :
    validateSpec nab store now =
      { nab := nab, store := store, createdBackup := none, statusWrites := 0,
        requeue := false, err := none } := by
  unfold validateSpec
  rw [h]
  simp [hc, SetStatusCondition_false_unchanged _ _ _ hc]

theorem ValidateBackupSpec_spec_eq (a b : NonAdminBackup)
    (h : a.spec = b.spec) : ValidateBackupSpec a = ValidateBackupSpec b := by
  unfold ValidateBackupSpec
  rw [h]

theorem Reconcile_phase_empty (o : String) (nab : NonAdminBackup)
    (store : Option VeleroBackup) (now : Nat)
    (h : nab.status.phase = EmptyString) :
    Reconcile o nab store now =
      { nab := { nab with status :=
          { nab.status with phase := NonAdminBackupPhaseNew } },
        store := store, createdBackup := none, statusWrites := 1,
        outcome := ReconcileOutcome.requeue } := by
  unfold Reconcile
  rw [init_empty nab store h]
  rfl

theorem Reconcile_invalid (o : String) (nab : NonAdminBackup)
    (store : Option VeleroBackup) (now : Nat) (msg : String)
    (h : nab.status.phase ≠ EmptyString)
    (hv : ValidateBackupSpec nab = some msg) :
    Reconcile o nab store now =
      { nab := (validateSpec nab store now).nab,
        store := store, createdBackup := none,
        statusWrites := (validateSpec nab store now).statusWrites,
        outcome := ReconcileOutcome.failed (ReconcileError.terminal msg) } := by
  unfold Reconcile
  rw [init_nonempty nab store h]
  dsimp only
  rw [validateSpec_fail nab store now msg hv]
  simp

theorem Reconcile_valid_changed (o : String) (nab : NonAdminBackup)
    (store : Option VeleroBackup) (now : Nat)
    (h : nab.status.phase ≠ EmptyString)
    (hv : ValidateBackupSpec nab = none)
    (hc : (SetStatusCondition nab.status.conditions acceptedTrueCondition
      now).2 = true) :
    Reconcile o nab store now =
      { nab := { nab with status := { nab.status with
          conditions := (SetStatusCondition nab.status.conditions
            acceptedTrueCondition now).1 } },
        store := store, createdBackup := none, statusWrites := 1,
        outcome := ReconcileOutcome.requeue } := by
  unfold Reconcile
  rw [init_nonempty nab store h]
  dsimp only
  rw [validateSpec_ok_changed nab store now hv hc]
  simp

theorem Reconcile_valid_unchanged (o : String) (nab : NonAdminBackup)
    (store : Option VeleroBackup) (now : Nat)
    (h : nab.status.phase ≠ EmptyString)
    (hv : ValidateBackupSpec nab = none)
    (hc : (SetStatusCondition nab.status.conditions acceptedTrueCondition
      now).2 = false) :
    Reconcile o nab store now =
      { nab := (syncVeleroBackupWithNonAdminBackup o nab store now).nab,
        store := (syncVeleroBackupWithNonAdminBackup o nab store now).store,
        createdBackup :=
          (syncVeleroBackupWithNonAdminBackup o nab store now).createdBackup,
        statusWrites :=
          (syncVeleroBackupWithNonAdminBackup o nab store now).statusWrites,
        outcome := ReconcileOutcome.done } := by
  unfold Reconcile
  rw [init_nonempty nab store h]
  dsimp only
  rw [validateSpec_ok_unchanged nab store now hv hc]
  dsimp only
  rw [sync_err_none o nab store now]
  dsimp only
  rw [sync_requeue_false o nab store now]
  simp

theorem Reconcile_phase_allowed (o : String) (store : Option VeleroBackup)
    (now : Nat) (nab : NonAdminBackup) (hInv : reachableInv nab) :
    phaseStepAllowed nab.status.phase
        (Reconcile o nab store now).nab.status.phase ∧
      reachableInv (Reconcile o nab store now).nab := by
  by_cases hph : nab.status.phase = EmptyString
  · rw [Reconcile_phase_empty o nab store now hph]
    constructor
    · exact Or.inr (Or.inl ⟨hph, rfl⟩)
    · cases hInv with
      | inl hI => exact Or.inl ⟨hI.1, Or.inr (Or.inl rfl)⟩
      | inr hI => exact Or.inr ⟨hI.1, Or.inr (Or.inl rfl)⟩
  · cases hv : ValidateBackupSpec nab with
    | some msg =>
        have hI : nab.status.phase = NonAdminBackupPhaseNew ∨
            nab.status.phase = NonAdminBackupPhaseBackingOff := by
          cases hInv with
          | inl hI2 =>
              rcases hI2.2 with h0 | h1 | h2
              · exact absurd h0 hph
              · exact Or.inl h1
              · exact Or.inr h2
          | inr hI2 => rw [hv] at hI2; exact absurd hI2.1 (by simp)
        rw [Reconcile_invalid o nab store now msg hph hv,
          validateSpec_fail nab store now msg hv]
        dsimp only
        have hphase : (updateNonAdminPhase nab.status.phase
            NonAdminBackupPhaseBackingOff).1 = NonAdminBackupPhaseBackingOff :=
          updateNonAdminPhase_to _ _ (by decide)
        rw [hphase]
        constructor
        · rcases hI with h1 | h2
          · exact Or.inr (Or.inr ⟨h1, Or.inr rfl⟩)
          · exact Or.inl h2
        · exact Or.inl ⟨by rw [show ValidateBackupSpec
            { nab with status := { nab.status with
                phase := NonAdminBackupPhaseBackingOff,
                conditions := (SetStatusCondition nab.status.conditions
                  (acceptedFalseCondition msg) now).1 } } =
              ValidateBackupSpec nab from rfl, hv]; rfl,
            Or.inr (Or.inr rfl)⟩
    | none =>
        have hI : nab.status.phase = NonAdminBackupPhaseNew ∨
            nab.status.phase = NonAdminBackupPhaseCreated := by
          cases hInv with
          | inl hI2 => rw [hv] at hI2; exact absurd hI2.1 (by simp)
          | inr hI2 =>
              rcases hI2.2 with h0 | h1 | h2
              · exact absurd h0 hph
              · exact Or.inl h1
              · exact Or.inr h2
        by_cases hc : (SetStatusCondition nab.status.conditions
            acceptedTrueCondition now).2 = true
        · rw [Reconcile_valid_changed o nab store now hph hv hc]
          constructor
          · exact Or.inl rfl
          · exact Or.inr ⟨hv, by
              rcases hI with h1 | h2
              · exact Or.inr (Or.inl h1)
              · exact Or.inr (Or.inr h2)⟩
        · have hc2 : (SetStatusCondition nab.status.conditions
              acceptedTrueCondition now).2 = false := by
            simpa using hc
          rw [Reconcile_valid_unchanged o nab store now hph hv hc2]
          dsimp only
          constructor
          · rw [sync_phase o nab store now]
            rcases hI with h1 | h2
            · exact Or.inr (Or.inr ⟨h1, Or.inl rfl⟩)
            · exact Or.inl h2
          · refine Or.inr ⟨?_, Or.inr (Or.inr (sync_phase o nab store now))⟩
            rw [ValidateBackupSpec_spec_eq _ nab (sync_spec o nab store now),
              hv]

theorem runReconciles_succ (o : String) (nab : NonAdminBackup)
    (store : Option VeleroBackup) (now k : Nat) :
    runReconciles o nab store now (k + 1) =
      ((Reconcile o (runReconciles o nab store now k).1
          (runReconciles o nab store now k).2 now).nab,
       (Reconcile o (runReconciles o nab store now k).1
          (runReconciles o nab store now k).2 now).store) := rfl

theorem runReconciles_inv (o : String) (nab : NonAdminBackup)
    (store : Option VeleroBackup) (now : Nat) (hInv : reachableInv nab) :
    ∀ k, reachableInv (runReconciles o nab store now k).1 := by
  intro k
  induction k with
  | zero => exact hInv
  | succ k ih =>
      rw [runReconciles_succ]
      exact (Reconcile_phase_allowed o _ now _ ih).2

/-- C1: for every NonAdminBackup request, when the sync step creates the
execution object (no existing Velero Backup found), the created object
IncludedNamespaces is exactly the singleton of the request namespace,
regardless of the namespaces the embedded backup spec listed. -/
theorem claim1_scope_narrowing (oadpNs : String) (nab : NonAdminBackup)
    (now : Nat) :
    ((syncVeleroBackupWithNonAdminBackup oadpNs nab none now).createdBackup.map
      fun vb => vb.spec.includedNamespaces) = some [nab.nspace] := by
  rw [sync_none oadpNs nab now, ssb_created]
  rfl

/-- C8: the init step on an empty phase sets New, writes once and requeues;
on a non-empty phase it is a no-op with no requeue and no error; in both
cases the phase is non-empty afterwards. -/
theorem claim8_init_step (nab : NonAdminBackup) (store : Option VeleroBackup) :
    (nab.status.phase = EmptyString →
      init nab store =
        { nab := { nab with status :=
            { nab.status with phase := NonAdminBackupPhaseNew } },
          store := store, createdBackup := none, statusWrites := 1,
          requeue := true, err := none }) ∧
    (nab.status.phase ≠ EmptyString →
      init nab store =
        { nab := nab, store := store, createdBackup := none, statusWrites := 0,
          requeue := false, err := none }) ∧
    (init nab store).nab.status.phase ≠ EmptyString := by
  by_cases h : nab.status.phase = EmptyString
  · refine ⟨fun _ => init_empty nab store h, fun h2 => absurd h h2, ?_⟩
    rw [init_empty nab store h]
    exact (by decide : NonAdminBackupPhaseNew ≠ EmptyString)
  · refine ⟨fun h2 => absurd h2 h, fun _ => init_nonempty nab store h, ?_⟩
    rw [init_nonempty nab store h]
    exact h

/-- Witness for C8 at a concrete fresh request. -/
theorem claim8_init_step_witness :
    init
        { name := "b", nspace := "t", generation := 1,
          spec := { backupSpec := { includedNamespaces := [], otherFields := "" } },
          status := { phase := EmptyString, conditions := [],
                      veleroBackup := none } } none =
      { nab :=
          { name := "b", nspace := "t", generation := 1,
            spec := { backupSpec := { includedNamespaces := [], otherFields := "" } },
            status := { phase := NonAdminBackupPhaseNew, conditions := [],
                        veleroBackup := none } },
        store := none, createdBackup := none, statusWrites := 1,
        requeue := true, err := none } :=
  (claim8_init_step _ none).1 rfl

/-- C9: the request-object event predicate accepts every Create event and
every Delete event, and accepts an Update event exactly when the generation
changed. -/
theorem claim9_predicate (o1 o2 objOld objNew : NonAdminBackup) :
    nonAdminBackupPredicateCreate o1 = true ∧
    nonAdminBackupPredicateDelete o2 = true ∧
    (nonAdminBackupPredicateUpdate objOld objNew = true ↔
      objNew.generation ≠ objOld.generation) := by
  refine ⟨rfl, rfl, ?_⟩
  unfold nonAdminBackupPredicateUpdate
  simp [bne_iff_ne]

/-- Witness for C9 at concrete objects differing only in generation. -/
theorem claim9_predicate_witness :
    nonAdminBackupPredicateUpdate
        { name := "b", nspace := "t", generation := 1,
          spec := { backupSpec := { includedNamespaces := [], otherFields := "" } },
          status := { phase := EmptyString, conditions := [],
                      veleroBackup := none } }
        { name := "b", nspace := "t", generation := 2,
          spec := { backupSpec := { includedNamespaces := [], otherFields := "" } },
          status := { phase := EmptyString, conditions := [],
                      veleroBackup := none } } = true :=
  (claim9_predicate
      { name := "b", nspace := "t", generation := 1,
        spec := { backupSpec := { includedNamespaces := [], otherFields := "" } },
        status := { phase := EmptyString, conditions := [],
                    veleroBackup := none } }
      { name := "b", nspace := "t", generation := 1,
        spec := { backupSpec := { includedNamespaces := [], otherFields := "" } },
        status := { phase := EmptyString, conditions := [],
                    veleroBackup := none } }
      { name := "b", nspace := "t", generation := 1,
        spec := { backupSpec := { includedNamespaces := [], otherFields := "" } },
        status := { phase := EmptyString, conditions := [],
                    veleroBackup := none } }
      { name := "b", nspace := "t", generation := 2,
        spec := { backupSpec := { includedNamespaces := [], otherFields := "" } },
        status := { phase := EmptyString, conditions := [],
                    veleroBackup := none } }).2.2.mpr (by decide)

/-- C10: updateNonAdminPhase with an empty new phase is a no-op returning
false; it returns true exactly when it changed the stored phase; a
non-empty phase can never be reset to empty. -/
theorem claim10_update_phase (ph newPhase : NonAdminBackupPhase) :
    (newPhase = EmptyString →
      updateNonAdminPhase ph newPhase = (ph, false)) ∧
    ((updateNonAdminPhase ph newPhase).2 = true ↔
      (updateNonAdminPhase ph newPhase).1 ≠ ph) ∧
    (ph ≠ EmptyString → (updateNonAdminPhase ph newPhase).1 ≠ EmptyString) := by
  refine ⟨?_, updateNonAdminPhase_changed_iff ph newPhase,
    updateNonAdminPhase_ne_empty ph newPhase⟩
  intro h
  unfold updateNonAdminPhase
  rw [if_pos h]

/-- Witness for C10 at concrete phases. -/
theorem claim10_update_phase_witness :
    updateNonAdminPhase NonAdminBackupPhaseNew EmptyString =
        (NonAdminBackupPhaseNew, false) ∧
      (updateNonAdminPhase NonAdminBackupPhaseNew
        NonAdminBackupPhaseCreated).2 = true :=
  ⟨(claim10_update_phase _ _).1 rfl,
   (claim10_update_phase NonAdminBackupPhaseNew
      NonAdminBackupPhaseCreated).2.1.mpr (by decide)⟩

/-- C4: on a validation failure, the validate step ends with phase
BackingOff, an Accepted=False condition with a descriptive reason and the
error message, persists exactly when something changed, returns a terminal
error without requeue, creates nothing, and the whole reconcile creates no
execution object. -/
theorem claim4_validation_failure (oadpNs : String) (nab : NonAdminBackup)
    (store : Option VeleroBackup) (now : Nat) (msg : String)
    (h : ValidateBackupSpec nab = some msg) :
    (validateSpec nab store now).nab.status.phase =
        NonAdminBackupPhaseBackingOff ∧
    (∃ d, FindStatusCondition (validateSpec nab store now).nab.status.conditions
        NonAdminConditionAccepted = some d ∧
      d.status = ConditionFalse ∧ d.reason = "InvalidBackupSpec" ∧
      d.message = msg) ∧
    (validateSpec nab store now).statusWrites =
      (if (validateSpec nab store now).nab = nab then 0 else 1) ∧
    (validateSpec nab store now).err = some (ReconcileError.terminal msg) ∧
    (validateSpec nab store now).requeue = false ∧
    (validateSpec nab store now).createdBackup = none ∧
    (Reconcile oadpNs nab store now).createdBackup = none := by
  rw [validateSpec_fail nab store now msg h]
  refine ⟨updateNonAdminPhase_to _ _ (by decide), ?_, ?_, rfl, rfl, rfl, ?_⟩
  · obtain ⟨d, hfind, hs, hr, hm, _⟩ :=
      SetStatusCondition_find_post nab.status.conditions
        (acceptedFalseCondition msg) now
    exact ⟨d, hfind, hs, hr, hm⟩
  · by_cases hp : (updateNonAdminPhase nab.status.phase
        NonAdminBackupPhaseBackingOff).2 = true
    · have hne : ({ nab with status := { nab.status with
          phase := (updateNonAdminPhase nab.status.phase
            NonAdminBackupPhaseBackingOff).1,
          conditions := (SetStatusCondition nab.status.conditions
            (acceptedFalseCondition msg) now).1 } } : NonAdminBackup) ≠ nab := by
        intro heq
        have hph := congrArg (fun x => x.status.phase) heq
        dsimp only at hph
        exact (updateNonAdminPhase_changed_iff _ _).mp hp hph
      rw [if_neg hne, hp]
      simp
    · have hp2 : (updateNonAdminPhase nab.status.phase
          NonAdminBackupPhaseBackingOff).2 = false := by simpa using hp
      by_cases hc : (SetStatusCondition nab.status.conditions
          (acceptedFalseCondition msg) now).2 = true
      · have hne : ({ nab with status := { nab.status with
            phase := (updateNonAdminPhase nab.status.phase
              NonAdminBackupPhaseBackingOff).1,
            conditions := (SetStatusCondition nab.status.conditions
              (acceptedFalseCondition msg) now).1 } } : NonAdminBackup) ≠ nab := by
          intro heq
          have hcd := congrArg (fun x => x.status.conditions) heq
          dsimp only at hcd
          rw [SetStatusCondition_eq_self _ _ _ hcd] at hc
          exact Bool.false_ne_true hc
        rw [if_neg hne, hp2, hc]
        simp
      · have hc2 : (SetStatusCondition nab.status.conditions
            (acceptedFalseCondition msg) now).2 = false := by simpa using hc
        have heq : ({ nab with status := { nab.status with
            phase := (updateNonAdminPhase nab.status.phase
              NonAdminBackupPhaseBackingOff).1,
            conditions := (SetStatusCondition nab.status.conditions
              (acceptedFalseCondition msg) now).1 } } : NonAdminBackup) = nab := by
          rw [updateNonAdminPhase_false_unchanged _ _ hp2,
            SetStatusCondition_false_unchanged _ _ _ hc2]
        rw [if_pos heq, hp2, hc2]
        simp
  · by_cases hph : nab.status.phase = EmptyString
    · rw [Reconcile_phase_empty oadpNs nab store now hph]
    · rw [Reconcile_invalid oadpNs nab store now msg hph h]

/-- Witness for C4 at a concrete invalid request. -/
theorem claim4_validation_failure_witness :
    (validateSpec
        { name := "b", nspace := "t", generation := 1,
          spec := { backupSpec := { includedNamespaces := ["t", "u"],
                                    otherFields := "" } },
          status := { phase := NonAdminBackupPhaseNew, conditions := [],
                      veleroBackup := none } } none 0).err =
      some (ReconcileError.terminal
        "spec.backupSpec.includedNamespaces is restricted") :=
  (claim4_validation_failure "o"
    { name := "b", nspace := "t", generation := 1,
      spec := { backupSpec := { includedNamespaces := ["t", "u"],
                                otherFields := "" } },
      status := { phase := NonAdminBackupPhaseNew, conditions := [],
                  veleroBackup := none } } none 0
    "spec.backupSpec.includedNamespaces is restricted" rfl).2.2.2.1

/-- C6: when bookkeeping is complete (phase Created, the Queued condition as
the engine writes it, reference identity matching) and the live status
differs from the stored snapshot, the sync step of the next reconcile
replaces only the reference status with a copy of the live status, writing
once; when they are equal it changes nothing and performs no write. -/
theorem claim6_drift_propagation (oadpNs : String) (nab : NonAdminBackup)
    (vb : VeleroBackup) (now : Nat) (r : VeleroBackupRef) (d : Condition)
    (hphase : nab.status.phase = NonAdminBackupPhaseCreated)
    (hfind : FindStatusCondition nab.status.conditions
      NonAdminConditionQueued = some d)
    (hds : d.status = ConditionTrue) (hdr : d.reason = "BackupScheduled")
    (hdm : d.message = "Created Velero Backup object")
    (hdg : d.observedGeneration = 0)
    (href : nab.status.veleroBackup = some r)
    (hrn : r.name = vb.name) (hrns : r.nspace = vb.nspace) :
    (r.status ≠ some vb.status →
      syncVeleroBackupWithNonAdminBackup oadpNs nab (some vb) now =
        { nab := { nab with status := { nab.status with
            veleroBackup := some { r with status := some vb.status } } },
          store := some vb, createdBackup := none, statusWrites := 1,
          requeue := false, err := none }) ∧
    (r.status = some vb.status →
      syncVeleroBackupWithNonAdminBackup oadpNs nab (some vb) now =
        { nab := nab, store := some vb, createdBackup := none,
          statusWrites := 0, requeue := false, err := none }) := by
  have hdone : syncBookkeepingDone nab vb := by
    refine ⟨hphase, ?_, r, href, hrn, hrns⟩
    intro m
    exact SetStatusCondition_noop_of_find nab.status.conditions
      queuedTrueCondition d m hfind hds hdr hdm hdg
  constructor
  · intro hne
    rw [sync_some oadpNs nab vb now, ssb_of_done nab vb none now hdone,
      stUpdate_some_ne nab.status vb r href hne]
    rfl
  · intro heq
    rw [sync_some oadpNs nab vb now,
      ssb_noop nab vb none now hdone ⟨r, href, heq⟩]

/-- Witness for C6 at a concrete drifted pair. -/
theorem claim6_drift_propagation_witness :
    syncVeleroBackupWithNonAdminBackup "oadp-w"
        { name := "b6", nspace := "t6", generation := 1,
          spec := { backupSpec := { includedNamespaces := [], otherFields := "" } },
          status := { phase := NonAdminBackupPhaseCreated,
                      conditions := [{ condType := NonAdminConditionQueued,
                                       status := ConditionTrue,
                                       reason := "BackupScheduled",
                                       message := "Created Velero Backup object",
                                       observedGeneration := 0,
                                       lastTransitionTime := 3 }],
                      veleroBackup := some { name := "nab-t6-b6",
                                             nspace := "oadp-w",
                                             status := some { phase := "InProgress",
                                                              otherFields := "" } } } }
        (some { name := "nab-t6-b6", nspace := "oadp-w", labels := [],
                annotations := [], spec := { includedNamespaces := ["t6"],
                                             otherFields := "" },
                status := { phase := "Completed", otherFields := "" } }) 9 =
      { nab :=
          { name := "b6", nspace := "t6", generation := 1,
            spec := { backupSpec := { includedNamespaces := [], otherFields := "" } },
            status := { phase := NonAdminBackupPhaseCreated,
                        conditions := [{ condType := NonAdminConditionQueued,
                                         status := ConditionTrue,
                                         reason := "BackupScheduled",
                                         message := "Created Velero Backup object",
                                         observedGeneration := 0,
                                         lastTransitionTime := 3 }],
                        veleroBackup := some { name := "nab-t6-b6",
                                               nspace := "oadp-w",
                                               status := some { phase := "Completed",
                                                                otherFields := "" } } } },
        store := some { name := "nab-t6-b6", nspace := "oadp-w", labels := [],
                        annotations := [], spec := { includedNamespaces := ["t6"],
                                                     otherFields := "" },
                        status := { phase := "Completed", otherFields := "" } },
        createdBackup := none, statusWrites := 1, requeue := false,
        err := none } :=
  (claim6_drift_propagation "oadp-w" _ _ 9
    { name := "nab-t6-b6", nspace := "oadp-w",
      status := some { phase := "InProgress", otherFields := "" } }
    { condType := NonAdminConditionQueued, status := ConditionTrue,
      reason := "BackupScheduled", message := "Created Velero Backup object",
      observedGeneration := 0, lastTransitionTime := 3 }
    rfl (by decide) rfl rfl rfl rfl rfl rfl rfl).1 (by decide)

/-- C7 (amended): the init and validate steps signal requeue after every
status write they persist without error; the sync step, refuted by the
counterexample, does not. -/
theorem claim7_requeue_after_write (nab : NonAdminBackup)
    (store : Option VeleroBackup) (now : Nat) :
    ((init nab store).statusWrites ≠ 0 → (init nab store).err = none →
      (init nab store).requeue = true) ∧
    ((validateSpec nab store now).statusWrites ≠ 0 →
      (validateSpec nab store now).err = none →
      (validateSpec nab store now).requeue = true) := by
  constructor
  · intro hw _
    by_cases h : nab.status.phase = EmptyString
    · rw [init_empty nab store h]
    · rw [init_nonempty nab store h] at hw
      simp at hw
  · intro hw herr
    cases hv : ValidateBackupSpec nab with
    | some msg =>
        rw [validateSpec_fail nab store now msg hv] at herr
        simp at herr
    | none =>
        by_cases hc : (SetStatusCondition nab.status.conditions
            acceptedTrueCondition now).2 = true
        · rw [validateSpec_ok_changed nab store now hv hc]
        · have hc2 : (SetStatusCondition nab.status.conditions
              acceptedTrueCondition now).2 = false := by simpa using hc
          rw [validateSpec_ok_unchanged nab store now hv hc2] at hw
          simp at hw

/-- Witness for C7 (amended) at a concrete fresh request. -/
theorem claim7_requeue_after_write_witness :
    (init
        { name := "b", nspace := "t", generation := 1,
          spec := { backupSpec := { includedNamespaces := [], otherFields := "" } },
          status := { phase := EmptyString, conditions := [],
                      veleroBackup := none } } none).requeue = true :=
  (claim7_requeue_after_write _ none 0).1 (by decide) (by decide)

/-- C7 counterexample: the sync step on c7Nab persists one status write,
returns no error, and does not signal requeue, refuting the claim that
every step that persists a status mutation and returns without error
signals requeue. -/
theorem claim7_counterexample :
    c7Run.statusWrites = 1 ∧ c7Run.err = none ∧ c7Run.requeue = false := by
  decide

/-- C5 (amended): when the sync step finds no execution object and the
request reference block is still absent, it creates the execution object (a
copy of the request job spec with narrowed scope, system labels, trace
annotations, zero status), sets phase Created and Queued=True, writes the
reference with name and namespace only and no status, persists once, and
returns without requeue and without error. -/
theorem claim5_create_and_bookkeeping (oadpNs : String)
    (nab : NonAdminBackup) (now : Nat)
    (href : nab.status.veleroBackup = none) :
    (syncVeleroBackupWithNonAdminBackup oadpNs nab none now).createdBackup =
        some (createdVeleroBackup oadpNs nab) ∧
    (createdVeleroBackup oadpNs nab).name =
      GenerateVeleroBackupName nab.nspace nab.name ∧
    (createdVeleroBackup oadpNs nab).nspace = oadpNs ∧
    (createdVeleroBackup oadpNs nab).labels = GetNonAdminLabels ∧
    (createdVeleroBackup oadpNs nab).annotations =
      GetNonAdminBackupAnnotations nab.nspace nab.name ∧
    (createdVeleroBackup oadpNs nab).spec =
      { nab.spec.backupSpec with includedNamespaces := [nab.nspace] } ∧
    (createdVeleroBackup oadpNs nab).status = zeroBackupStatus ∧
    (syncVeleroBackupWithNonAdminBackup oadpNs nab none now).store =
      some (createdVeleroBackup oadpNs nab) ∧
    (syncVeleroBackupWithNonAdminBackup oadpNs nab none now).nab.status.phase =
      NonAdminBackupPhaseCreated ∧
    (∃ d, FindStatusCondition
        (syncVeleroBackupWithNonAdminBackup oadpNs nab none
          now).nab.status.conditions NonAdminConditionQueued = some d ∧
      d.status = ConditionTrue) ∧
    (syncVeleroBackupWithNonAdminBackup oadpNs nab none
        now).nab.status.veleroBackup =
      some { name := (createdVeleroBackup oadpNs nab).name,
             nspace := (createdVeleroBackup oadpNs nab).nspace,
             status := none } ∧
    (syncVeleroBackupWithNonAdminBackup oadpNs nab none now).statusWrites = 1 ∧
    (syncVeleroBackupWithNonAdminBackup oadpNs nab none now).requeue = false ∧
    (syncVeleroBackupWithNonAdminBackup oadpNs nab none now).err = none := by
  rw [sync_none oadpNs nab now,
    ssb_ref_none nab (createdVeleroBackup oadpNs nab)
      (some (createdVeleroBackup oadpNs nab)) now href]
  refine ⟨rfl, rfl, rfl, rfl, rfl, rfl, rfl, rfl,
    updateNonAdminPhase_to _ _ (by decide), ?_, rfl, rfl, rfl, rfl⟩
  obtain ⟨d, hfind, hs, _, _, _⟩ :=
    SetStatusCondition_find_post nab.status.conditions queuedTrueCondition now
  exact ⟨d, hfind, hs⟩

/-- Witness for C5 (amended) at a concrete request with no reference. -/
theorem claim5_create_and_bookkeeping_witness :
    (syncVeleroBackupWithNonAdminBackup "oadp-w5"
        { name := "b5", nspace := "t5", generation := 1,
          spec := { backupSpec := { includedNamespaces := ["x", "y"],
                                    otherFields := "snap" } },
          status := { phase := NonAdminBackupPhaseNew, conditions := [],
                      veleroBackup := none } } none 0).createdBackup =
      some (createdVeleroBackup "oadp-w5"
        { name := "b5", nspace := "t5", generation := 1,
          spec := { backupSpec := { includedNamespaces := ["x", "y"],
                                    otherFields := "snap" } },
          status := { phase := NonAdminBackupPhaseNew, conditions := [],
                      veleroBackup := none } }) :=
  (claim5_create_and_bookkeeping "oadp-w5"
    { name := "b5", nspace := "t5", generation := 1,
      spec := { backupSpec := { includedNamespaces := ["x", "y"],
                                otherFields := "snap" } },
      status := { phase := NonAdminBackupPhaseNew, conditions := [],
                  veleroBackup := none } } 0 rfl).1

/-- C5 counterexample: on a request whose bookkeeping is already complete
and whose reference snapshot is set, with the execution object absent from
the store, the sync step creates the object but leaves the reference status
present (a copy of the zero live status), not absent as the claim states
for every not-found case. -/
theorem claim5_counterexample :
    c5Run.createdBackup = some (createdVeleroBackup "oadp-ns" c5Nab) ∧
    c5Run.nab.status.veleroBackup =
      some { name := "nab-tenant5-backup5", nspace := "oadp-ns",
             status := some zeroBackupStatus } ∧
    c5Run.nab.status.veleroBackup ≠
      some { name := "nab-tenant5-backup5", nspace := "oadp-ns",
             status := none } := by
  decide

/-- C2 (amended): after any first sync invocation, a second invocation with
no external change performs no create, no requeue and no error, and its
phase, Queued-condition and reference comparisons all report no change; only
the status-snapshot comparison may still write once (when the first
invocation left the snapshot behind the live status, as right after a
create); a third invocation performs no write at all and leaves the request
unchanged. -/
theorem claim2_sync_second_run (oadpNs : String) (nab : NonAdminBackup)
    (store : Option VeleroBackup) (now1 now2 now3 : Nat)
    (r1 r2 r3 : StepResult)
    (h1 : r1 = syncVeleroBackupWithNonAdminBackup oadpNs nab store now1)
    (h2 : r2 = syncVeleroBackupWithNonAdminBackup oadpNs r1.nab r1.store now2)
    (h3 : r3 = syncVeleroBackupWithNonAdminBackup oadpNs r2.nab r2.store now3) :
    r2.createdBackup = none ∧ r2.requeue = false ∧ r2.err = none ∧
    (updateNonAdminPhase r1.nab.status.phase NonAdminBackupPhaseCreated).2 =
      false ∧
    SetStatusCondition r1.nab.status.conditions queuedTrueCondition now2 =
      (r1.nab.status.conditions, false) ∧
    (∀ vb2, r1.store = some vb2 →
      updateNonAdminBackupVeleroBackupReference r1.nab.status vb2 =
        (r1.nab.status, false)) ∧
    r3.statusWrites = 0 ∧ r3.createdBackup = none ∧ r3.nab = r2.nab := by
  subst h1
  subst h2
  subst h3
  obtain ⟨vb, cb, hssb, hstore⟩ := sync_as_ssb oadpNs nab store now1
  have hdone1 : syncBookkeepingDone
      (syncVeleroBackupWithNonAdminBackup oadpNs nab store now1).nab vb := by
    rw [hssb]; exact ssb_done nab vb cb now1
  have h2eq : syncVeleroBackupWithNonAdminBackup oadpNs
      (syncVeleroBackupWithNonAdminBackup oadpNs nab store now1).nab
      (syncVeleroBackupWithNonAdminBackup oadpNs nab store now1).store now2 =
      syncStatusBlock
        (syncVeleroBackupWithNonAdminBackup oadpNs nab store now1).nab vb
        none now2 := by
    rw [hstore, sync_some]
  have hdone2 : syncBookkeepingDone
      (syncStatusBlock
        (syncVeleroBackupWithNonAdminBackup oadpNs nab store now1).nab vb
        none now2).nab vb :=
    ssb_done _ vb none now2
  have hsnap2 : snapshotCurrent
      (syncStatusBlock
        (syncVeleroBackupWithNonAdminBackup oadpNs nab store now1).nab vb
        none now2).nab vb :=
    ssb_snapshot_of_done _ vb none now2 hdone1
  have h3eq : syncVeleroBackupWithNonAdminBackup oadpNs
      (syncVeleroBackupWithNonAdminBackup oadpNs
        (syncVeleroBackupWithNonAdminBackup oadpNs nab store now1).nab
        (syncVeleroBackupWithNonAdminBackup oadpNs nab store now1).store
        now2).nab
      (syncVeleroBackupWithNonAdminBackup oadpNs
        (syncVeleroBackupWithNonAdminBackup oadpNs nab store now1).nab
        (syncVeleroBackupWithNonAdminBackup oadpNs nab store now1).store
        now2).store now3 =
      syncStatusBlock
        (syncStatusBlock
          (syncVeleroBackupWithNonAdminBackup oadpNs nab store now1).nab vb
          none now2).nab vb none now3 := by
    rw [h2eq, ssb_store, sync_some]
  have hnoop3 : syncStatusBlock
      (syncStatusBlock
        (syncVeleroBackupWithNonAdminBackup oadpNs nab store now1).nab vb
        none now2).nab vb none now3 =
      { nab := (syncStatusBlock
          (syncVeleroBackupWithNonAdminBackup oadpNs nab store now1).nab vb
          none now2).nab,
        store := some vb, createdBackup := none, statusWrites := 0,
        requeue := false, err := none } :=
    ssb_noop _ vb none now3 hdone2 hsnap2
  refine ⟨?_, ?_, ?_, ?_, hdone1.2.1 now2, ?_, ?_, ?_, ?_⟩
  · rw [h2eq, ssb_created]
  · rw [h2eq, ssb_requeue]
  · rw [h2eq, ssb_err]
  · rw [updateNonAdminPhase_noop _ _ hdone1.1]
  · intro vb2 hvb2
    rw [hstore] at hvb2
    obtain rfl : vb = vb2 := Option.some.inj hvb2
    obtain ⟨r, hr, hn, hns⟩ := hdone1.2.2
    exact refUpdate_noop _ _ r hr hn hns
  · rw [h3eq, hnoop3]
  · rw [h3eq, hnoop3]
  · rw [h3eq, hnoop3, h2eq]

/-- Witness for C2 (amended) on the concrete two-invocation chain. -/
theorem claim2_sync_second_run_witness :
    c2Run2.createdBackup = none ∧ c2Run3.statusWrites = 0 := by
  have h := claim2_sync_second_run "oadp-ns" c2Nab none 2 3 4
    c2Run1 c2Run2 c2Run3 rfl rfl rfl
  exact ⟨h.1, h.2.2.2.2.2.2.1⟩

/-- C2 counterexample: on a fresh valid request, the first sync invocation
creates the execution object; the second invocation, with no external
change, still performs a status-update write (the status-snapshot
comparison reports a change, nil snapshot against zero live status),
refuting the claim that the second invocation performs no status-update
write and that all comparisons report no change. -/
theorem claim2_counterexample :
    c2Run1.err = none ∧ c2Run2.createdBackup = none ∧
    c2Run2.statusWrites = 1 ∧ c2Run2.nab ≠ c2Run1.nab := by
  decide

/-- C3 (amended): along any run of whole reconciles on a fresh request with
no intervening external change (in particular none to the spec), the phase
moves only along empty to New, New to Created, or New to BackingOff, staying
put otherwise; and the init step never rewrites a non-empty phase. The
unrestricted claim is refuted by the counterexample, where an external spec
fix moves the phase BackingOff to Created. -/
theorem claim3_phase_monotonic (o : String) (nab : NonAdminBackup)
    (store : Option VeleroBackup) (now k : Nat)
    (h : nab.status.phase = EmptyString) :
    phaseStepAllowed (runReconciles o nab store now k).1.status.phase
      (runReconciles o nab store now (k + 1)).1.status.phase ∧
    ((runReconciles o nab store now k).1.status.phase ≠ EmptyString →
      init (runReconciles o nab store now k).1
          (runReconciles o nab store now k).2 =
        { nab := (runReconciles o nab store now k).1,
          store := (runReconciles o nab store now k).2,
          createdBackup := none, statusWrites := 0, requeue := false,
          err := none }) := by
  have hInv0 : reachableInv nab := by
    cases hv : ValidateBackupSpec nab with
    | some msg => exact Or.inl ⟨by rw [hv]; rfl, Or.inl h⟩
    | none => exact Or.inr ⟨hv, Or.inl h⟩
  have hInvk := runReconciles_inv o nab store now hInv0 k
  constructor
  · rw [runReconciles_succ]
    exact (Reconcile_phase_allowed o _ now _ hInvk).1
  · intro hne
    exact init_nonempty _ _ hne

/-- Witness for C3 (amended) on a concrete fresh request. -/
theorem claim3_phase_monotonic_witness :
    phaseStepAllowed
      (runReconciles "o"
        { name := "b", nspace := "t", generation := 1,
          spec := { backupSpec := { includedNamespaces := [], otherFields := "" } },
          status := { phase := EmptyString, conditions := [],
                      veleroBackup := none } } none 0 1).1.status.phase
      (runReconciles "o"
        { name := "b", nspace := "t", generation := 1,
          spec := { backupSpec := { includedNamespaces := [], otherFields := "" } },
          status := { phase := EmptyString, conditions := [],
                      veleroBackup := none } } none 0 2).1.status.phase :=
  (claim3_phase_monotonic "o"
    { name := "b", nspace := "t", generation := 1,
      spec := { backupSpec := { includedNamespaces := [], otherFields := "" } },
      status := { phase := EmptyString, conditions := [],
                  veleroBackup := none } } none 0 1 rfl).1

/-- C3 counterexample: a fresh request with an invalid spec reaches
BackingOff; after the tenant fixes the spec (an external spec change), the
next reconciles move the phase BackingOff to Created, a transition between
non-empty phases other than New to Created or New to BackingOff. -/
theorem claim3_counterexample :
    c3Start.status.phase = EmptyString ∧
    c3R1.nab.status.phase = NonAdminBackupPhaseNew ∧
    c3R2.nab.status.phase = NonAdminBackupPhaseBackingOff ∧
    c3R3.nab.status.phase = NonAdminBackupPhaseBackingOff ∧
    c3R4.nab.status.phase = NonAdminBackupPhaseCreated ∧
    ¬ phaseStepAllowed c3R3.nab.status.phase c3R4.nab.status.phase := by
  decide
